import Mathlib

/-!
# Verification of the request-instrumentation behaviour of the observability demo apps

The repository ships one source file, `src/test-app/index.js`, containing two
concatenated Express application variants:

* **Variant 1** (lines 1-399): a trace-id middleware (`req.traceId =
  crypto.randomBytes(12).toString('hex')`, `req.endTimer = responseTime.startTimer()`),
  a finish-event middleware that on `res.on('finish')` increments
  `app_requests_total{route,method,status_code}`, observes
  `app_response_time_seconds{route,method}` and emits a DEBUG completion log,
  plus routes `/`, `/add-to-cart`, `/products`, `/cart`, `/account`, `/status`,
  `/simulate-error`, `/metrics`.
* **Variant 2** (lines 399-492): no middleware; per-route calls
  `requestCount.inc({route})` / `responseTime` with only a `route` label, a `log`
  helper without trace ids, routes `/`, `/status` (healthy threshold `0.2`),
  `/simulate-error`, `/metrics` (whose catch branch does `res.end(err)`).

The embedding below mirrors both variants.  Wall-clock time (`Date.toISOString`)
is abstracted: an opaque `now` string stands for the serialized timestamp where a
JSON body carries one, and log-entry timestamps are not modelled (no claim
depends on their values).  `Math.random()` draws and the random trace-id bytes
are inputs to the model.  The Prometheus client is an external collaborator: the
model records the label sets passed to `inc`/`endTimer` as events, and
`register.metrics()` is an input of type `Except String String` (error message
or exposition text).
-/

namespace TestApp

/-- Log levels appearing in the source (open enumeration; these four are used). -/
inductive Level
  | DEBUG
  | INFO
  | ERROR
  | SUCCESS
  deriving DecidableEq

/-- One structured log line (the JSON object passed to `console.log`).
`trace_id`, `route`, `method` are `Option` because `JSON.stringify` omits
`undefined` fields: the variant-2 `log` helper and both startup logs set none of
them.  The `timestamp` field (emission wall-clock time) is abstracted away. -/
structure LogEntry where
  level : Level
  trace_id : Option String
  route : Option String
  method : Option String
  message : String
  deriving DecidableEq

/-- Response body, as handed to `res.send` / `res.json` / `res.redirect` /
`res.end`.  `html` carries the trace id interpolated into the page (none for the
variant-2 home page, which interpolates none); `errValue` is variant 2 passing
the caught error object itself to `res.end`. -/
inductive Body
  | html (traceId : Option String)
  | json (fields : List (String × String))
  | redirect (location : String)
  | text (s : String)
  | exposition (s : String)
  | errValue (err : String)
  deriving DecidableEq

/-- Look a key up in a `Body.json` association list (a JSON object field). -/
def jsonField : Body → String → Option String
  | Body.json fields, k => (fields.find? (fun p => p.1 == k)).map Prod.snd
  | _, _ => none

/-- An inbound HTTP request: path (query string excluded, as in `req.path`),
method, and the two query parameters the routes read (`req.query.sku`,
`req.query.message`). -/
structure Request where
  path : String
  method : String
  querySku : Option String
  queryMessage : Option String
  deriving DecidableEq

/-- The random draws a single request consumes: the 12 bytes of
`crypto.randomBytes(12)`, the `Math.random()` draw inside `simulateWork`, and
the `Math.random()` draw of the `/status` handler. -/
structure Rand where
  traceBytes : List Nat
  delayDraw : ℚ
  statusDraw : ℚ
  deriving DecidableEq

/-- Per-request environment: randomness, the result of `register.metrics()`
(collaborator call), whether the `finish` event fires (false = connection
aborted before finalization), and the opaque serialized wall-clock time. -/
structure Env where
  rand : Rand
  metricsResult : Except String String
  finishes : Bool
  now : String

/-! ## Hex rendering of the trace id (`Buffer.toString('hex')`) -/

/-- One lowercase hexadecimal digit (`0`-`9`, `a`-`f`). -/
def hexDigit (n : Nat) : Char :=
  if n < 10 then Char.ofNat (48 + n) else Char.ofNat (87 + n)

/-- A byte as two lowercase hex characters, most significant nibble first. -/
def byteToHex (b : Nat) : List Char :=
  [hexDigit (b / 16), hexDigit (b % 16)]

/-- `Buffer.from(bytes).toString('hex')`: concatenated per-byte hex pairs. -/
def bytesToHex (bs : List Nat) : String :=
  ⟨bs.flatMap byteToHex⟩

/-- `crypto.randomBytes(12).toString('hex')` applied to the sampled bytes. -/
def mkTraceId (bytes : List Nat) : String :=
  bytesToHex bytes

/-- A character is a lowercase hexadecimal digit. -/
def isLowerHexChar (c : Char) : Bool :=
  (48 ≤ c.toNat && c.toNat ≤ 57) || (97 ≤ c.toNat && c.toNat ≤ 102)

/-! ## `encodeURIComponent` (used by the `/add-to-cart` redirect) -/

/-- The characters `encodeURIComponent` leaves unescaped:
`A-Z a-z 0-9 - _ . ! ~ * ' ( )` (by code point). -/
def isUriUnreserved (c : Char) : Bool :=
  (65 ≤ c.toNat && c.toNat ≤ 90) || (97 ≤ c.toNat && c.toNat ≤ 122) ||
  (48 ≤ c.toNat && c.toNat ≤ 57) ||
  (c.toNat ∈ [45, 95, 46, 33, 126, 42, 39, 40, 41])

/-- UTF-8 encoding of a Unicode code point, as its byte list. -/
def utf8Bytes (n : Nat) : List Nat :=
  if n < 128 then [n]
  else if n < 2048 then [192 + n / 64, 128 + n % 64]
  else if n < 65536 then [224 + n / 4096, 128 + (n / 64) % 64, 128 + n % 64]
  else [240 + n / 262144, 128 + (n / 4096) % 64, 128 + (n / 64) % 64, 128 + n % 64]

/-- One uppercase hexadecimal digit (`encodeURIComponent` uses uppercase). -/
def hexDigitUpper (n : Nat) : Char :=
  if n < 10 then Char.ofNat (48 + n) else Char.ofNat (55 + n)

/-- A percent-escaped byte: `%XX`. -/
def percentEncodeByte (b : Nat) : List Char :=
  [Char.ofNat 37, hexDigitUpper (b / 16), hexDigitUpper (b % 16)]

/-- JavaScript `encodeURIComponent`: unreserved characters pass through, every
other character is UTF-8 encoded and each byte percent-escaped. -/
def encodeURIComponent (s : String) : String :=
  ⟨s.data.flatMap (fun c =>
    if isUriUnreserved c then [c] else (utf8Bytes c.toNat).flatMap percentEncodeByte)⟩

/-! ## `simulateWork` -/

/-- The delay computed by `simulateWork(minMs, maxMs)` from the draw
`r = Math.random()`: `Math.random() * (maxMs - minMs) + minMs`. -/
def simulateWorkDelay (minMs maxMs r : ℚ) : ℚ :=
  r * (maxMs - minMs) + minMs

/-! ## Variant 1 (lines 1-399): middleware pipeline and routes -/

/-- The variant-1 `log(level, message, req)` helper: always injects the trace
id, `req.path` and `req.method` into the entry. -/
def v1Log (level : Level) (message : String) (req : Request) (traceId : String) :
    LogEntry :=
  { level := level, trace_id := some traceId, route := some req.path,
    method := some req.method, message := message }

/-- The success message redirected with by `/add-to-cart`. -/
def cartSuccessMessage : String :=
  "✅ Success! Wireless Headphones added to cart."

/-- What a variant-1 route handler produces: the log lines it emits, the
`cartActionCount.inc` label sets, the response status and body, and the
`(minMs, maxMs)` pair it passed to `simulateWork` (none if it did not call
it). -/
structure HandlerResult where
  logs : List LogEntry
  cartIncs : List (List (String × String))
  statusCode : Nat
  body : Body
  delayParams : Option (ℚ × ℚ)
  deriving DecidableEq

/-- Variant-1 route dispatch: each branch mirrors the corresponding
`app.get(...)` handler; the final branch is the Express default 404 for
unmatched requests. -/
def handle (req : Request) (traceId : String) (rand : Rand)
    (metricsResult : Except String String) (now : String) : HandlerResult :=
  if req.method = "GET" ∧ req.path = "/" then
    { logs := [v1Log .INFO
        "E-commerce Home/Product page accessed and simulating backend operations."
        req traceId],
      cartIncs := [], statusCode := 200, body := Body.html (some traceId),
      delayParams := some (100, 300) }
  else if req.method = "GET" ∧ req.path = "/add-to-cart" then
    let sku := match req.querySku with
      | none => "UNKNOWN"
      | some s => if s = "" then "UNKNOWN" else s
    { logs := [v1Log .INFO ("Starting cart service transaction for SKU: " ++ sku)
          req traceId,
        v1Log .SUCCESS
          ("Product SKU " ++ sku ++ " successfully added to shopping cart.")
          req traceId],
      cartIncs := [[("product_sku", sku)]],
      statusCode := 302,
      body := Body.redirect ("/?message=" ++ encodeURIComponent cartSuccessMessage),
      delayParams := some (150, 400) }
  else if req.method = "GET" ∧ req.path = "/products" then
    { logs := [v1Log .INFO
        "Products search service accessed. Simulating complex filtering." req traceId],
      cartIncs := [], statusCode := 200, body := Body.html (some traceId),
      delayParams := some (200, 500) }
  else if req.method = "GET" ∧ req.path = "/cart" then
    { logs := [v1Log .INFO
        "Cart session data accessed. Simulating fast cache lookup." req traceId],
      cartIncs := [], statusCode := 200, body := Body.html (some traceId),
      delayParams := some (10, 50) }
  else if req.method = "GET" ∧ req.path = "/account" then
    { logs := [v1Log .INFO
        "User profile service accessed. Simulating authentication check." req traceId],
      cartIncs := [], statusCode := 200, body := Body.html (some traceId),
      delayParams := some (50, 150) }
  else if req.method = "GET" ∧ req.path = "/status" then
    let status := if rand.statusDraw > 1/10 then "✅ healthy" else "🚨 unhealthy"
    { logs := [v1Log .INFO "Health status check initiated." req traceId,
        v1Log .INFO ("Health status reported: " ++ status) req traceId],
      cartIncs := [], statusCode := 200,
      body := Body.json [("status", status), ("timestamp", now),
        ("trace_id", traceId),
        ("message", "Quick health check. A small chance of \"unhealthy\" for testing alerts.")],
      delayParams := some (10, 50) }
  else if req.method = "GET" ∧ req.path = "/simulate-error" then
    { logs := [v1Log .ERROR
        "Simulated application error occurred due to bad request data!" req traceId],
      cartIncs := [], statusCode := 500,
      body := Body.json [("error",
          "Simulated internal server error generated for testing 5xx alerts and error logs."),
        ("trace_id", traceId), ("route", req.path),
        ("suggestion",
          "Check the error log using the trace_id in your logging system (Loki/Elasticsearch).")],
      delayParams := some (100, 300) }
  else if req.method = "GET" ∧ req.path = "/metrics" then
    match metricsResult with
    | Except.ok text =>
      { logs := [v1Log .DEBUG "Metrics endpoint accessed." req traceId],
        cartIncs := [], statusCode := 200, body := Body.exposition text,
        delayParams := none }
    | Except.error msg =>
      { logs := [v1Log .DEBUG "Metrics endpoint accessed." req traceId,
          v1Log .ERROR ("Metrics fetch failed: " ++ msg) req traceId],
        cartIncs := [], statusCode := 500,
        body := Body.text "Failed to fetch metrics.",
        delayParams := none }
  else
    { logs := [], cartIncs := [], statusCode := 404,
      body := Body.text ("Cannot " ++ req.method ++ " " ++ req.path),
      delayParams := none }

/-- Everything observable a single variant-1 request produces: log lines (in
emission order), `app_requests_total` increment label sets,
`app_response_time_seconds` observation label sets, `ecomm_cart_actions_total`
increment label sets, the trace id assigned at entry, and the response. -/
structure Outcome where
  logs : List LogEntry
  requestCountIncs : List (List (String × String))
  observations : List (List (String × String))
  cartActionIncs : List (List (String × String))
  traceId : String
  statusCode : Nat
  body : Body
  delayParams : Option (ℚ × ℚ)
  deriving DecidableEq

/-- The variant-1 pipeline for one request: the first middleware assigns
`req.traceId` and starts the timer; the second registers the `finish`
listener; the route handler runs; if (and only if) the response finishes, the
listener increments the counter with `{route, method, status_code}`, observes
the histogram with `{route, method}` and emits the DEBUG completion log.  An
aborted connection (`finishes = false`) runs the handler but never fires the
listener. -/
def processV1 (req : Request) (env : Env) : Outcome :=
  let traceId := mkTraceId env.rand.traceBytes
  let h := handle req traceId env.rand env.metricsResult env.now
  { logs := h.logs ++
      (if env.finishes then
        [v1Log .DEBUG ("Request completed with status " ++ toString h.statusCode)
          req traceId]
      else []),
    requestCountIncs :=
      if env.finishes then
        [[("route", req.path), ("method", req.method),
          ("status_code", toString h.statusCode)]]
      else [],
    observations :=
      if env.finishes then [[("route", req.path), ("method", req.method)]] else [],
    cartActionIncs := h.cartIncs,
    traceId := traceId,
    statusCode := h.statusCode,
    body := h.body,
    delayParams := h.delayParams }

/-- The variant-1 process-startup log line (`console.log(JSON.stringify(...))`
with only `level`, `timestamp`, `message`). -/
def v1StartupLog : LogEntry :=
  { level := .INFO, trace_id := none, route := none, method := none,
    message := "E-commerce Demo App running on http://localhost:3000" }

/-- Is this log entry the finish-listener completion line for status `code`? -/
def isCompletionLog (code : Nat) (e : LogEntry) : Bool :=
  (e.level == Level.DEBUG) &&
  (e.message == "Request completed with status " ++ toString code)

/-! ## Variant 2 (lines 399-492): per-route metric calls, no middleware -/

/-- The variant-2 `log(level, message)` helper: the emitted JSON object has
only `level`, `timestamp`, `message` (no trace id, route or method exist in
this variant). -/
def v2Log (level : Level) (message : String) : LogEntry :=
  { level := level, trace_id := none, route := none, method := none,
    message := message }

/-- Everything observable a single variant-2 request produces.  The counter
and histogram of this variant carry only a `route` label, and the metric calls
happen synchronously inside the handlers (not on a finish event). -/
structure V2Outcome where
  logs : List LogEntry
  requestCountIncs : List (List (String × String))
  observations : List (List (String × String))
  statusCode : Nat
  body : Body
  deriving DecidableEq

/-- Variant-2 route dispatch, handler by handler.  `/status` declares healthy
on `Math.random() > 0.2`; the `/metrics` catch branch passes the caught error
itself to `res.end` after `res.status(500)`. -/
def processV2 (req : Request) (statusDraw : ℚ)
    (metricsResult : Except String String) (now : String) : V2Outcome :=
  if req.method = "GET" ∧ req.path = "/" then
    { logs := [v2Log .INFO "Home route accessed"],
      requestCountIncs := [[("route", "/")]],
      observations := [[("route", "/")]],
      statusCode := 200, body := Body.html none }
  else if req.method = "GET" ∧ req.path = "/status" then
    let status := if statusDraw > 1/5 then "healthy" else "unhealthy"
    { logs := [v2Log .INFO ("Health status checked: " ++ status)],
      requestCountIncs := [[("route", "/status")]],
      observations := [[("route", "/status")]],
      statusCode := 200,
      body := Body.json [("status", status), ("timestamp", now)] }
  else if req.method = "GET" ∧ req.path = "/simulate-error" then
    { logs := [v2Log .ERROR "Simulated application error occurred!"],
      requestCountIncs := [[("route", "/simulate-error")]],
      observations := [[("route", "/simulate-error")]],
      statusCode := 500,
      body := Body.json
        [("error", "Simulated error generated for testing logs.")] }
  else if req.method = "GET" ∧ req.path = "/metrics" then
    match metricsResult with
    | Except.ok text =>
      { logs := [], requestCountIncs := [], observations := [],
        statusCode := 200, body := Body.exposition text }
    | Except.error msg =>
      { logs := [v2Log .ERROR ("Metrics fetch failed: " ++ msg)],
        requestCountIncs := [], observations := [],
        statusCode := 500, body := Body.errValue msg }
  else
    { logs := [], requestCountIncs := [], observations := [],
      statusCode := 404,
      body := Body.text ("Cannot " ++ req.method ++ " " ++ req.path) }

/-- The variant-2 startup log, emitted through its `log` helper. -/
def v2StartupLog : LogEntry :=
  v2Log .INFO "Server running on http://localhost:3000"

/-! ## Concrete sample inputs (used by witnesses) -/

/-- A GET request to `path` with no query parameters. -/
def reqOf (p : String) : Request :=
  { path := p, method := "GET", querySku := none, queryMessage := none }

/-- A GET request to `/add-to-cart` with `?sku=s`. -/
def reqSku (s : String) : Request :=
  { path := "/add-to-cart", method := "GET", querySku := some s,
    queryMessage := none }

/-- A GET request to `/add-to-cart` with no `sku` parameter. -/
def reqNoSku : Request :=
  { path := "/add-to-cart", method := "GET", querySku := none,
    queryMessage := none }

/-- Twelve concrete sample bytes for the trace id. -/
def sampleBytes : List Nat := [0, 1, 2, 3, 4, 5, 6, 7, 8, 9, 10, 171]

/-- Concrete sample randomness. -/
def sampleRand : Rand :=
  { traceBytes := sampleBytes, delayDraw := 1/2, statusDraw := 1/2 }

/-- A sample environment whose response finishes normally. -/
def sampleEnv : Env :=
  { rand := sampleRand, metricsResult := Except.ok "exposition", finishes := true,
    now := "2026-01-01T00:00:00.000Z" }

/-- The sample environment with the connection aborted before `finish`. -/
def sampleEnvAborted : Env :=
  { sampleEnv with finishes := false }

/-- The sample environment in which `register.metrics()` throws. -/
def sampleEnvMetricsFail : Env :=
  { sampleEnv with metricsResult := Except.error "boom" }

/-! ## Helper lemmas -/

/-- Every log line a variant-1 route handler emits goes through `log(level,
message, req)` and therefore carries the trace id, `req.path` and
`req.method`. -/
theorem handle_logs_fields (req : Request) (traceId : String) (rand : Rand)
    (mr : Except String String) (now : String) :
    ∀ e ∈ (handle req traceId rand mr now).logs,
      e.trace_id = some traceId ∧ e.route = some req.path ∧
      e.method = some req.method := by
  intro e he
  unfold handle at he
  repeat' split at he
  all_goals simp only [List.mem_cons, List.mem_singleton, List.not_mem_nil,
    or_false] at he
  all_goals rcases he with rfl | rfl <;> simp [v1Log]

/-- No variant-1 route handler emits a line that looks like the finish
listener's completion log (each is either not DEBUG or has a different
message). -/
theorem handle_completion_filter (req : Request) (traceId : String) (rand : Rand)
    (mr : Except String String) (now : String) :
    (handle req traceId rand mr now).logs.filter
      (isCompletionLog (handle req traceId rand mr now).statusCode) = [] := by
  unfold handle
  repeat' split
  all_goals rfl

/-- Every `(minMs, maxMs)` pair a variant-1 handler passes to `simulateWork`
has `minMs ≤ maxMs`. -/
theorem handle_delay_le (req : Request) (traceId : String) (rand : Rand)
    (mr : Except String String) (now : String) (mn mx : ℚ)
    (h : (handle req traceId rand mr now).delayParams = some (mn, mx)) :
    mn ≤ mx := by
  unfold handle at h
  repeat' split at h
  all_goals simp_all
  all_goals obtain ⟨rfl, rfl⟩ := h
  all_goals norm_num

/-- Every log line of a processed variant-1 request (handler lines and the
completion line alike) carries the trace id assigned at entry, the request
path and the request method. -/
theorem processV1_logs_fields (req : Request) (env : Env) :
    ∀ e ∈ (processV1 req env).logs,
      e.trace_id = some (mkTraceId env.rand.traceBytes) ∧
      e.route = some req.path ∧ e.method = some req.method := by
  intro e he
  unfold processV1 at he
  simp only [List.mem_append] at he
  rcases he with he | he
  · exact handle_logs_fields req _ env.rand env.metricsResult env.now e he
  · rcases hf : env.finishes <;> rw [hf] at he
    · simp at he
    · simp only [if_true, List.mem_singleton] at he
      subst he
      simp [v1Log]

/-- `bytesToHex` renders each byte as two characters. -/
theorem bytesToHex_length (bs : List Nat) :
    (bytesToHex bs).length = 2 * bs.length := by
  show (bs.flatMap byteToHex).length = 2 * bs.length
  induction bs with
  | nil => rfl
  | cons b t ih =>
    rw [List.flatMap_cons, List.length_append, ih, List.length_cons]
    show 2 + 2 * t.length = 2 * (t.length + 1)
    ring

/-- `hexDigit` of a nibble is a lowercase hex character. -/
theorem hexDigit_lower : ∀ n, n < 16 → isLowerHexChar (hexDigit n) = true := by
  decide

/-- Every log line a variant-2 handler emits goes through the two-argument
`log(level, message)` helper, so it carries no trace id, route or method. -/
theorem processV2_logs_none (req : Request) (sd : ℚ)
    (mr : Except String String) (n : String) :
    ∀ e ∈ (processV2 req sd mr n).logs,
      e.trace_id = none ∧ e.route = none ∧ e.method = none := by
  intro e he
  unfold processV2 at he
  repeat' split at he
  all_goals simp only [List.mem_cons, List.mem_singleton, List.not_mem_nil,
    or_false] at he
  all_goals (subst he; simp [v2Log])

/-! ## Claim theorems -/

/-- C1: every request that enters the variant-1 middleware and whose response
finishes records exactly one `app_requests_total` increment labelled
`{route, method, status_code}`, exactly one `app_response_time_seconds`
observation labelled `{route, method}`, and exactly one DEBUG completion log
line; an aborted connection (no `finish` event) records none of the three. -/
theorem middleware_exactly_once_telemetry (req : Request) (env : Env) :
    (processV1 req env).requestCountIncs =
      (if env.finishes then
        [[("route", req.path), ("method", req.method),
          ("status_code", toString (processV1 req env).statusCode)]]
       else []) ∧
    (processV1 req env).observations =
      (if env.finishes then [[("route", req.path), ("method", req.method)]]
       else []) ∧
    ((processV1 req env).logs.filter
        (isCompletionLog (processV1 req env).statusCode)).length =
      (if env.finishes then 1 else 0) := by
  refine ⟨rfl, rfl, ?_⟩
  simp only [processV1]
  rw [List.filter_append, handle_completion_filter]
  rcases env.finishes
  · rfl
  · simp [isCompletionLog, v1Log]

/-- C2: for a completed GET request to `/status` or `/simulate-error`, the
`trace_id` field of the JSON response body equals the correlation identifier
of the request, the completion log line carries that same identifier, and
every log line of the request carries it (one identifier per request). -/
theorem trace_id_consistency (req : Request) (env : Env)
    (hm : req.method = "GET")
    (hp : req.path = "/status" ∨ req.path = "/simulate-error")
    (hf : env.finishes = true) :
    jsonField (processV1 req env).body "trace_id" =
      some ((processV1 req env).traceId) ∧
    (∃ e ∈ (processV1 req env).logs,
      isCompletionLog (processV1 req env).statusCode e = true ∧
      e.trace_id = some ((processV1 req env).traceId)) ∧
    (∀ e ∈ (processV1 req env).logs,
      e.trace_id = some ((processV1 req env).traceId)) := by
  refine ⟨?_, ?_, fun e he => (processV1_logs_fields req env e he).1⟩
  · rcases hp with hp | hp <;>
      simp [processV1, handle, jsonField, hm, hp]
  · refine ⟨v1Log .DEBUG
      ("Request completed with status " ++ toString (processV1 req env).statusCode)
      req ((processV1 req env).traceId), ?_, ?_, rfl⟩
    · simp only [processV1, hf, if_true]
      exact List.mem_append_right _ (List.mem_singleton.mpr rfl)
    · simp [isCompletionLog, v1Log]

/-- C2 witness: a completed GET `/status` request in the sample environment. -/
theorem trace_id_consistency_witness :
    jsonField (processV1 (reqOf "/status") sampleEnv).body "trace_id" =
      some ((processV1 (reqOf "/status") sampleEnv).traceId) ∧
    (∃ e ∈ (processV1 (reqOf "/status") sampleEnv).logs,
      isCompletionLog (processV1 (reqOf "/status") sampleEnv).statusCode e = true ∧
      e.trace_id = some ((processV1 (reqOf "/status") sampleEnv).traceId)) ∧
    (∀ e ∈ (processV1 (reqOf "/status") sampleEnv).logs,
      e.trace_id = some ((processV1 (reqOf "/status") sampleEnv).traceId)) :=
  trace_id_consistency (reqOf "/status") sampleEnv rfl (Or.inl rfl) rfl

/-- C3: the correlation identifier is the 12 sampled random bytes rendered in
hex — a 24-character lowercase hex string — generated once at entry and
carried unchanged by every log line of the request. -/
theorem trace_id_twelve_byte_hex (req : Request) (env : Env)
    (hlen : env.rand.traceBytes.length = 12)
    (hbytes : ∀ b ∈ env.rand.traceBytes, b < 256) :
    (processV1 req env).traceId = mkTraceId env.rand.traceBytes ∧
    ((processV1 req env).traceId).length = 24 ∧
    (∀ c ∈ ((processV1 req env).traceId).data, isLowerHexChar c = true) ∧
    (∀ e ∈ (processV1 req env).logs,
      e.trace_id = some ((processV1 req env).traceId)) := by
  refine ⟨rfl, ?_, ?_, ?_⟩
  · show (mkTraceId env.rand.traceBytes).length = 24
    rw [mkTraceId, bytesToHex_length, hlen]
  · intro c hc
    have hc' : c ∈ env.rand.traceBytes.flatMap byteToHex := hc
    rcases List.mem_flatMap.mp hc' with ⟨b, hb, hcb⟩
    have hblt := hbytes b hb
    simp only [byteToHex, List.mem_cons, List.not_mem_nil, or_false] at hcb
    rcases hcb with rfl | rfl
    · exact hexDigit_lower (b / 16) (by omega)
    · exact hexDigit_lower (b % 16) (by omega)
  · exact fun e he => (processV1_logs_fields req env e he).1

/-- C3 witness: concrete 12 sample bytes on a GET `/` request. -/
theorem trace_id_twelve_byte_hex_witness :
    (processV1 (reqOf "/") sampleEnv).traceId = mkTraceId sampleEnv.rand.traceBytes ∧
    ((processV1 (reqOf "/") sampleEnv).traceId).length = 24 ∧
    (∀ c ∈ ((processV1 (reqOf "/") sampleEnv).traceId).data,
      isLowerHexChar c = true) ∧
    (∀ e ∈ (processV1 (reqOf "/") sampleEnv).logs,
      e.trace_id = some ((processV1 (reqOf "/") sampleEnv).traceId)) :=
  trace_id_twelve_byte_hex (reqOf "/") sampleEnv (by decide) (by decide)

/-- C4 counterexample: in variant 2 (`src/test-app/index.js`, second app), the
`/simulate-error` handler increments the request counter with only a `route`
label — no increment with `status_code="500"` is recorded there, refuting the
claim for the cited second variant. -/
theorem v2_simulate_error_counter_without_status_code :
    (processV2 (reqOf "/simulate-error") (1/2) (Except.ok "exposition") "T").statusCode
      = 500 ∧
    (processV2 (reqOf "/simulate-error") (1/2) (Except.ok "exposition") "T").requestCountIncs
      = [[("route", "/simulate-error")]] ∧
    ∀ labels ∈ (processV2 (reqOf "/simulate-error") (1/2)
        (Except.ok "exposition") "T").requestCountIncs,
      ("status_code", "500") ∉ labels := by
  decide

/-- C4 (amended): in variant 1 every GET `/simulate-error` call returns 500
with a JSON error body (whose `suggestion` field points at the `trace_id`),
emits an ERROR log line, and — upon response finish — increments the counter
with `status_code="500"`; in variant 2 it returns 500, emits an ERROR log
line, and increments the counter with only the `route` label. -/
theorem simulate_error_behavior (req : Request) (env : Env)
    (hm : req.method = "GET") (hp : req.path = "/simulate-error") :
    (processV1 req env).statusCode = 500 ∧
    jsonField (processV1 req env).body "error" =
      some "Simulated internal server error generated for testing 5xx alerts and error logs." ∧
    jsonField (processV1 req env).body "suggestion" =
      some "Check the error log using the trace_id in your logging system (Loki/Elasticsearch)." ∧
    jsonField (processV1 req env).body "trace_id" =
      some ((processV1 req env).traceId) ∧
    (∃ e ∈ (processV1 req env).logs, e.level = Level.ERROR) ∧
    (env.finishes = true →
      (processV1 req env).requestCountIncs =
        [[("route", "/simulate-error"), ("method", "GET"), ("status_code", "500")]]) ∧
    (∀ sd mr n, (processV2 (reqOf "/simulate-error") sd mr n).statusCode = 500 ∧
      (∃ e ∈ (processV2 (reqOf "/simulate-error") sd mr n).logs,
        e.level = Level.ERROR) ∧
      (processV2 (reqOf "/simulate-error") sd mr n).requestCountIncs =
        [[("route", "/simulate-error")]]) := by
  refine ⟨?_, ?_, ?_, ?_, ?_, ?_, ?_⟩
  · simp [processV1, handle, hm, hp]
  · simp [processV1, handle, jsonField, hm, hp]
  · simp [processV1, handle, jsonField, hm, hp]
  · simp [processV1, handle, jsonField, hm, hp]
  · refine ⟨v1Log .ERROR
      "Simulated application error occurred due to bad request data!" req
      ((processV1 req env).traceId), ?_, rfl⟩
    simp [processV1, handle, hm, hp, v1Log]
  · intro hf
    simp [processV1, handle, hm, hp, hf]
    rfl
  · intro sd mr n
    refine ⟨rfl, ⟨v2Log .ERROR "Simulated application error occurred!", ?_, rfl⟩, rfl⟩
    simp [processV2, reqOf, v2Log]

/-- C4 witness: a completed GET `/simulate-error` in the sample environment. -/
theorem simulate_error_behavior_witness :
    (processV1 (reqOf "/simulate-error") sampleEnv).statusCode = 500 ∧
    jsonField (processV1 (reqOf "/simulate-error") sampleEnv).body "error" =
      some "Simulated internal server error generated for testing 5xx alerts and error logs." ∧
    jsonField (processV1 (reqOf "/simulate-error") sampleEnv).body "suggestion" =
      some "Check the error log using the trace_id in your logging system (Loki/Elasticsearch)." ∧
    jsonField (processV1 (reqOf "/simulate-error") sampleEnv).body "trace_id" =
      some ((processV1 (reqOf "/simulate-error") sampleEnv).traceId) ∧
    (∃ e ∈ (processV1 (reqOf "/simulate-error") sampleEnv).logs,
      e.level = Level.ERROR) ∧
    (sampleEnv.finishes = true →
      (processV1 (reqOf "/simulate-error") sampleEnv).requestCountIncs =
        [[("route", "/simulate-error"), ("method", "GET"), ("status_code", "500")]]) ∧
    (∀ sd mr n, (processV2 (reqOf "/simulate-error") sd mr n).statusCode = 500 ∧
      (∃ e ∈ (processV2 (reqOf "/simulate-error") sd mr n).logs,
        e.level = Level.ERROR) ∧
      (processV2 (reqOf "/simulate-error") sd mr n).requestCountIncs =
        [[("route", "/simulate-error")]]) :=
  simulate_error_behavior (reqOf "/simulate-error") sampleEnv rfl rfl

/-- C5: `GET /add-to-cart?sku=WH001` redirects to `/` with a `message` query
parameter holding the URL-encoded success string, and increments
`ecomm_cart_actions_total{product_sku="WH001"}` exactly once. -/
theorem add_to_cart_redirect_and_counter (env : Env) :
    (processV1 (reqSku "WH001") env).body =
      Body.redirect ("/?message=" ++ encodeURIComponent cartSuccessMessage) ∧
    encodeURIComponent cartSuccessMessage =
      "%E2%9C%85%20Success!%20Wireless%20Headphones%20added%20to%20cart." ∧
    (processV1 (reqSku "WH001") env).statusCode = 302 ∧
    (processV1 (reqSku "WH001") env).cartActionIncs =
      [[("product_sku", "WH001")]] :=
  ⟨rfl, by decide, rfl, rfl⟩

/-- C6 counterexample: in variant 2 the `/status` healthy threshold is `0.2`,
not `0.1`: at draw `3/20 = 0.15` the draw exceeds `0.1` yet the reported
status is `"unhealthy"`, refuting the claimed biconditional. -/
theorem v2_status_threshold_counterexample :
    ((3 : ℚ)/20 > 1/10) ∧
    jsonField (processV2 (reqOf "/status") (3/20) (Except.ok "exposition") "T").body
        "status" = some "unhealthy" ∧
    jsonField (processV2 (reqOf "/status") (3/20) (Except.ok "exposition") "T").body
        "status" ≠ some "healthy" := by
  have hb : (processV2 (reqOf "/status") (3/20) (Except.ok "exposition") "T").body
      = Body.json [("status", if (3/20 : ℚ) > 1/5 then "healthy" else "unhealthy"),
          ("timestamp", "T")] := rfl
  refine ⟨by norm_num, ?_, ?_⟩
  · rw [hb, if_neg (by norm_num)]
    rfl
  · rw [hb, if_neg (by norm_num)]
    simp [jsonField]

/-- C6 (amended): in variant 1 the `/status` body's status field is
`"✅ healthy"` exactly when the draw exceeds `0.1` (else `"🚨 unhealthy"`,
so ≈90%/10%); in variant 2 it is `"healthy"` exactly when the draw exceeds
`0.2` (else `"unhealthy"`, so ≈80%/20%). -/
theorem status_healthy_thresholds (req : Request) (env : Env) (sd : ℚ)
    (mr : Except String String) (n : String)
    (hm : req.method = "GET") (hp : req.path = "/status") :
    (jsonField (processV1 req env).body "status" = some "✅ healthy" ↔
      env.rand.statusDraw > 1/10) ∧
    (jsonField (processV1 req env).body "status" = some "🚨 unhealthy" ↔
      ¬ env.rand.statusDraw > 1/10) ∧
    (jsonField (processV2 (reqOf "/status") sd mr n).body "status" =
        some "healthy" ↔ sd > 1/5) ∧
    (jsonField (processV2 (reqOf "/status") sd mr n).body "status" =
        some "unhealthy" ↔ ¬ sd > 1/5) := by
  refine ⟨?_, ?_, ?_, ?_⟩
  · by_cases hd : env.rand.statusDraw > 1/10 <;>
      simp [processV1, handle, jsonField, hm, hp, hd]
  · by_cases hd : env.rand.statusDraw > 1/10 <;>
      simp [processV1, handle, jsonField, hm, hp, hd]
  · by_cases hd : sd > 1/5 <;>
      simp [processV2, reqOf, jsonField, hd]
  · by_cases hd : sd > 1/5 <;>
      simp [processV2, reqOf, jsonField, hd]

/-- C6 witness: a concrete `/status` request in each variant. -/
theorem status_healthy_thresholds_witness :
    (jsonField (processV1 (reqOf "/status") sampleEnv).body "status" =
        some "✅ healthy" ↔ sampleEnv.rand.statusDraw > 1/10) ∧
    (jsonField (processV1 (reqOf "/status") sampleEnv).body "status" =
        some "🚨 unhealthy" ↔ ¬ sampleEnv.rand.statusDraw > 1/10) ∧
    (jsonField (processV2 (reqOf "/status") (1/2) (Except.ok "exposition") "T").body
        "status" = some "healthy" ↔ (1/2 : ℚ) > 1/5) ∧
    (jsonField (processV2 (reqOf "/status") (1/2) (Except.ok "exposition") "T").body
        "status" = some "unhealthy" ↔ ¬ (1/2 : ℚ) > 1/5) :=
  status_healthy_thresholds (reqOf "/status") sampleEnv (1/2)
    (Except.ok "exposition") "T" rfl rfl

/-- C7 counterexample: in variant 2 a failing `register.metrics()` call makes
the handler pass the caught error object itself to `res.end`, not a short
generic text body. -/
theorem v2_metrics_failure_body_is_error_value :
    (processV2 (reqOf "/metrics") (1/2) (Except.error "boom") "T").statusCode = 500 ∧
    (processV2 (reqOf "/metrics") (1/2) (Except.error "boom") "T").body =
      Body.errValue "boom" ∧
    ∀ s : String,
      (processV2 (reqOf "/metrics") (1/2) (Except.error "boom") "T").body ≠
        Body.text s := by
  refine ⟨by decide, by decide, ?_⟩
  intro s h
  rw [(by decide :
    (processV2 (reqOf "/metrics") (1/2) (Except.error "boom") "T").body =
      Body.errValue "boom")] at h
  exact Body.noConfusion h

/-- C7 (amended): in variant 1 a failing metrics-exposition call is caught,
logged at ERROR level, and answered with a 500 and the short text body
`Failed to fetch metrics.`; on success the handler returns 200 with the
registry's exposition text.  In variant 2 the failure is caught and logged the
same way but the response body passed to `res.end` is the error value itself. -/
theorem metrics_endpoint_error_handling (req : Request) (env : Env)
    (msg txt : String) (hm : req.method = "GET") (hp : req.path = "/metrics") :
    (env.metricsResult = Except.error msg →
      (processV1 req env).statusCode = 500 ∧
      (processV1 req env).body = Body.text "Failed to fetch metrics." ∧
      v1Log .ERROR ("Metrics fetch failed: " ++ msg) req ((processV1 req env).traceId)
        ∈ (processV1 req env).logs) ∧
    (env.metricsResult = Except.ok txt →
      (processV1 req env).statusCode = 200 ∧
      (processV1 req env).body = Body.exposition txt) ∧
    (∀ sd n, (processV2 (reqOf "/metrics") sd (Except.error msg) n).statusCode = 500 ∧
      v2Log .ERROR ("Metrics fetch failed: " ++ msg)
        ∈ (processV2 (reqOf "/metrics") sd (Except.error msg) n).logs ∧
      (processV2 (reqOf "/metrics") sd (Except.error msg) n).body =
        Body.errValue msg) ∧
    (∀ sd n, (processV2 (reqOf "/metrics") sd (Except.ok txt) n).statusCode = 200 ∧
      (processV2 (reqOf "/metrics") sd (Except.ok txt) n).body =
        Body.exposition txt) := by
  refine ⟨?_, ?_, ?_, ?_⟩
  · intro he
    simp [processV1, handle, hm, hp, he, v1Log]
  · intro he
    simp [processV1, handle, hm, hp, he]
  · intro sd n
    refine ⟨rfl, ?_, rfl⟩
    simp [processV2, reqOf, v2Log]
  · intro sd n
    exact ⟨rfl, rfl⟩

/-- C7 witness: a `/metrics` request whose exposition call throws `boom`. -/
theorem metrics_endpoint_error_handling_witness :
    (sampleEnvMetricsFail.metricsResult = Except.error "boom" →
      (processV1 (reqOf "/metrics") sampleEnvMetricsFail).statusCode = 500 ∧
      (processV1 (reqOf "/metrics") sampleEnvMetricsFail).body =
        Body.text "Failed to fetch metrics." ∧
      v1Log .ERROR ("Metrics fetch failed: " ++ "boom") (reqOf "/metrics")
          ((processV1 (reqOf "/metrics") sampleEnvMetricsFail).traceId)
        ∈ (processV1 (reqOf "/metrics") sampleEnvMetricsFail).logs) ∧
    (sampleEnvMetricsFail.metricsResult = Except.ok "exposition" →
      (processV1 (reqOf "/metrics") sampleEnvMetricsFail).statusCode = 200 ∧
      (processV1 (reqOf "/metrics") sampleEnvMetricsFail).body =
        Body.exposition "exposition") ∧
    (∀ sd n, (processV2 (reqOf "/metrics") sd (Except.error "boom") n).statusCode
        = 500 ∧
      v2Log .ERROR ("Metrics fetch failed: " ++ "boom")
        ∈ (processV2 (reqOf "/metrics") sd (Except.error "boom") n).logs ∧
      (processV2 (reqOf "/metrics") sd (Except.error "boom") n).body =
        Body.errValue "boom") ∧
    (∀ sd n, (processV2 (reqOf "/metrics") sd (Except.ok "exposition") n).statusCode
        = 200 ∧
      (processV2 (reqOf "/metrics") sd (Except.ok "exposition") n).body =
        Body.exposition "exposition") :=
  metrics_endpoint_error_handling (reqOf "/metrics") sampleEnvMetricsFail
    "boom" "exposition" rfl rfl

/-- C8: for every latency-simulating variant-1 route with configured bounds
`(minMs, maxMs)` and every draw `0 ≤ r < 1`, the `simulateWork` delay
`r * (maxMs - minMs) + minMs` lies between `minMs` and `maxMs`. -/
theorem simulate_work_delay_in_bounds (req : Request) (env : Env) (mn mx r : ℚ)
    (hcfg : (processV1 req env).delayParams = some (mn, mx))
    (h0 : 0 ≤ r) (h1 : r < 1) :
    mn ≤ simulateWorkDelay mn mx r ∧ simulateWorkDelay mn mx r ≤ mx := by
  have hle : mn ≤ mx :=
    handle_delay_le req _ env.rand env.metricsResult env.now mn mx hcfg
  unfold simulateWorkDelay
  constructor
  · nlinarith
  · nlinarith

/-- C8 witness: the home route's configured bounds `(100, 300)` at draw `1/2`. -/
theorem simulate_work_delay_in_bounds_witness :
    (100 : ℚ) ≤ simulateWorkDelay 100 300 (1/2) ∧
    simulateWorkDelay 100 300 (1/2) ≤ 300 :=
  simulate_work_delay_in_bounds (reqOf "/") sampleEnv 100 300 (1/2) rfl
    (by norm_num) (by norm_num)

/-- C9 counterexample: variant 2 emits request log lines (here the `/status`
health line) without `trace_id`, `route` or `method`, and they are not the
process-startup line of either variant — refuting "absent only for the
process-startup log line". -/
theorem v2_request_log_lacks_trace_id :
    ∃ e ∈ (processV2 (reqOf "/status") (1/2) (Except.ok "exposition") "T").logs,
      e.trace_id = none ∧ e.route = none ∧ e.method = none ∧
      e.message ≠ v2StartupLog.message ∧ e.message ≠ v1StartupLog.message := by
  decide

/-- C9 (amended): every log line of every variant-1 request carries
`trace_id`, `route` and `method` (absent only on the startup line), while
every log line of every variant-2 request — like both startup lines —
carries none of the three.  The two universals are independent: `req1` and
`req2` range over all requests of each variant separately. -/
theorem log_line_field_presence (req1 req2 : Request) (env : Env) (sd : ℚ)
    (mr : Except String String) (n : String) :
    (∀ e ∈ (processV1 req1 env).logs,
      e.trace_id = some ((processV1 req1 env).traceId) ∧
      e.route = some req1.path ∧ e.method = some req1.method) ∧
    (∀ e ∈ (processV2 req2 sd mr n).logs,
      e.trace_id = none ∧ e.route = none ∧ e.method = none) ∧
    v1StartupLog.trace_id = none ∧ v1StartupLog.route = none ∧
    v1StartupLog.method = none ∧ v2StartupLog.trace_id = none :=
  ⟨processV1_logs_fields req1 env, processV2_logs_none req2 sd mr n,
    rfl, rfl, rfl, rfl⟩

/-- C9 witness: a variant-1 `/add-to-cart` request (a route variant 2 does
not serve, so its variant-1 log lines are covered independently) alongside a
variant-2 `/status` request. -/
theorem log_line_field_presence_witness :
    (∀ e ∈ (processV1 (reqSku "WH001") sampleEnv).logs,
      e.trace_id = some ((processV1 (reqSku "WH001") sampleEnv).traceId) ∧
      e.route = some (reqSku "WH001").path ∧
      e.method = some (reqSku "WH001").method) ∧
    (∀ e ∈ (processV2 (reqOf "/status") (1/2) (Except.ok "exposition") "T").logs,
      e.trace_id = none ∧ e.route = none ∧ e.method = none) ∧
    v1StartupLog.trace_id = none ∧ v1StartupLog.route = none ∧
    v1StartupLog.method = none ∧ v2StartupLog.trace_id = none :=
  log_line_field_presence (reqSku "WH001") (reqOf "/status") sampleEnv (1/2)
    (Except.ok "exposition") "T"

/-- C10: `GET /add-to-cart` with a missing or empty `sku` query parameter
still succeeds: it increments the business counter once with the fallback
`product_sku="UNKNOWN"` and responds with the same `302` redirect as when a
sku is supplied. -/
theorem add_to_cart_missing_sku_fallback (env : Env) :
    (processV1 reqNoSku env).cartActionIncs = [[("product_sku", "UNKNOWN")]] ∧
    (processV1 (reqSku "") env).cartActionIncs = [[("product_sku", "UNKNOWN")]] ∧
    (processV1 reqNoSku env).statusCode = 302 ∧
    (processV1 (reqSku "") env).statusCode = 302 ∧
    (processV1 reqNoSku env).body = (processV1 (reqSku "WH001") env).body ∧
    (processV1 (reqSku "") env).body = (processV1 reqNoSku env).body :=
  ⟨rfl, rfl, rfl, rfl, rfl, rfl⟩

end TestApp
